import Mathlib

/-!
Verification of the entity risk assessment core (shallow embedding).

The Python source is embedded as executable Lean definitions:

* `models/entity.py`      → `EntityType`, `Entity`, `Anomaly`
* `services/risk_scorer.py` → `entity_type_risk`, `calculate_anomaly_risk`,
  `calculate_geographic_risk`, `total_risk`, `calculate_risk_score`,
  `generate_risk_reason`
* `services/entity_extractor.py` → `classify_entity_type`
* `services/fake_data_generator.py` → `country_risk`, `generate_fake_anomalies`
* `services/anomaly_detector.py` → `HistoryState`, `update_transaction_history`,
  `detect_anomalies`

Python floats are modelled as rationals (ℚ); Python `datetime` timestamps are
modelled as rationals counting seconds, with calendar days obtained by flooring
division by 86400; Python dicts are modelled as association lists (for the
fixed configuration tables) or as functions to `Option` (for the mutable
per-entity history).  Optional values are `Option`; Python truthiness of
optional booleans and strings is made explicit.
-/

namespace Aidel

/-- Embedding of `EntityType` from `models/entity.py`. -/
inductive EntityType where
  | CORPORATION
  | NON_PROFIT
  | SHELL_COMPANY
  | GOVERNMENT_AGENCY
  | FINANCIAL_INTERMEDIARY
  | UNKNOWN
deriving DecidableEq, Repr

/-- Embedding of `Anomaly` from `models/entity.py`. -/
structure Anomaly where
  type : String
  severity : ℚ
  description : String
  evidence : List String
deriving DecidableEq, Repr

/-- Embedding of `Entity` from `models/entity.py`, with the pydantic field
defaults (`sanctions_status = False`, `reputation_score = 0.0`, the rest
`None`). -/
structure Entity where
  name : String
  type : EntityType
  confidence_score : ℚ
  evidence_sources : List String
  registration_number : Option String := none
  jurisdiction : Option String := none
  incorporation_date : Option String := none
  directors : Option (List String) := none
  shareholders : Option (List String) := none
  sanctions_status : Option Bool := some false
  risk_factors : Option (List (String × ℚ)) := none
  reputation_score : Option ℚ := some 0
deriving DecidableEq, Repr

/-- Python truthiness of an `Optional[bool]`: `None` and `False` are falsy. -/
def optBoolTruthy : Option Bool → Bool
  | some b => b
  | none => false

/-- Python truthiness of an `Optional[str]`: `None` and `""` are falsy. -/
def optStrTruthy : Option String → Bool
  | some s => !(s == "")
  | none => false

/-- Python `str.lower()` (ASCII-relevant part), as a structural map over the
character data so that it evaluates by kernel reduction. -/
def strLower (s : String) : String := String.mk (s.data.map Char.toLower)

/-- A regex `pat$` test (`re.search` with an end-anchored literal pattern):
the string ends with `pat`. -/
def strEndsWith (s pat : String) : Bool := pat.data.isSuffixOf s.data

/-- Python `needle in hay` substring test, structurally on character data. -/
def strContains (hay needle : String) : Bool :=
  go needle.data hay.data
where
  /-- Does `p` occur as a contiguous infix of `l`? -/
  go (p : List Char) : List Char → Bool
    | [] => p.isEmpty
    | c :: cs => p.isPrefixOf (c :: cs) || go p cs

/-- Python `sep.join(parts)`. -/
def pyJoin (sep : String) : List String → String
  | [] => ""
  | [x] => x
  | x :: y :: ys => x ++ sep ++ pyJoin sep (y :: ys)

/-- Python builtin `min` on two floats (executable form). -/
def pymin (a b : ℚ) : ℚ := if a ≤ b then a else b

/-- Python builtin `max` on two floats (executable form). -/
def pymax (a b : ℚ) : ℚ := if b ≤ a then a else b

theorem pymin_eq_min (a b : ℚ) : pymin a b = min a b := by
  simp [pymin, min_def]

theorem pymax_eq_max (a b : ℚ) : pymax a b = max a b := by
  rw [pymax, max_comm]
  simp [max_def]

/-- Python `dict.get(k, dflt)` over an association list. -/
def dictGetD (d : List (String × ℚ)) (k : String) (dflt : ℚ) : ℚ :=
  match d.lookup k with
  | some v => v
  | none => dflt

/-! ## RiskScorer (`services/risk_scorer.py`) -/

/-- The `self.entity_type_risk` table of `RiskScorer.__init__`; every
`EntityType` is a key, so `dict.get(entity.type, 0.5)` is this total
function. -/
def entity_type_risk : EntityType → ℚ
  | .SHELL_COMPANY => 8/10
  | .FINANCIAL_INTERMEDIARY => 6/10
  | .CORPORATION => 4/10
  | .NON_PROFIT => 3/10
  | .GOVERNMENT_AGENCY => 2/10
  | .UNKNOWN => 5/10

/-- The `self.high_risk_jurisdictions` table of `RiskScorer.__init__`
(lower-case keys). -/
def high_risk_jurisdictions : List (String × ℚ) :=
  [("ru", 8/10), ("cn", 7/10), ("ir", 9/10), ("kp", 9/10),
   ("sy", 8/10), ("ve", 7/10), ("mm", 7/10), ("zw", 6/10)]

/-- `RiskScorer._calculate_anomaly_risk`.  `if not anomalies` treats both
`None` and the empty list as "no anomalies". -/
def calculate_anomaly_risk
    (anomalies : Option (List Anomaly)) (transaction_amount : Option ℚ) : ℚ :=
  match anomalies with
  | none => 0
  | some [] => 0
  | some (a0 :: l) =>
    let avg : ℚ := (((a0 :: l).map Anomaly.severity).sum : ℚ) / ((a0 :: l).length : ℚ)
    match transaction_amount with
    | none => avg
    | some a => (avg + pymin (a / 1000000) 1) / 2

/-- `RiskScorer._calculate_geographic_risk`: neutral 0.5 for a falsy
jurisdiction, else a lower-cased lookup with default 0.5. -/
def calculate_geographic_risk : Option String → ℚ
  | none => 1/2
  | some j => if j = "" then 1/2 else dictGetD high_risk_jurisdictions (strLower j) (1/2)

/-- The `risk_scores["sanctions"]` line of `RiskScorer.calculate_risk_score`:
`0.8 if entity.sanctions_status else 0.0`. -/
def sanctions_risk (e : Entity) : ℚ :=
  if optBoolTruthy e.sanctions_status then 8/10 else 0

/-- The `risk_scores["reputation"]` line of `RiskScorer.calculate_risk_score`:
`1.0 - entity.reputation_score if entity.reputation_score is not None else 0.5`. -/
def reputation_risk (e : Entity) : ℚ :=
  match e.reputation_score with
  | some r => 1 - r
  | none => 1/2

/-- The weighted sum `total_risk` computed inside
`RiskScorer.calculate_risk_score`, before the final clamp; the weights are
`self.weights` (entity_type 0.3, sanctions 0.25, reputation 0.2,
anomalies 0.15, geographic 0.1). -/
def total_risk (e : Entity) (anomalies : Option (List Anomaly)) (amt : Option ℚ) : ℚ :=
  entity_type_risk e.type * (3/10)
    + sanctions_risk e * (25/100)
    + reputation_risk e * (2/10)
    + calculate_anomaly_risk anomalies amt * (15/100)
    + calculate_geographic_risk e.jurisdiction * (1/10)

/-- `RiskScorer.calculate_risk_score`: the weighted sum clamped by
`min(max(total_risk, 0.0), 1.0)`. -/
def calculate_risk_score (e : Entity)
    (anomalies : Option (List Anomaly)) (amt : Option ℚ) : ℚ :=
  pymin (pymax (total_risk e anomalies amt) 0) 1

/-- Entity-type clause of `RiskScorer.generate_risk_reason`. -/
def entity_type_clauses (e : Entity) : List String :=
  if e.type = .SHELL_COMPANY then ["Entity is classified as a shell company"]
  else if e.type = .FINANCIAL_INTERMEDIARY then ["Entity is a financial intermediary"]
  else []

/-- Sanctions clause of `RiskScorer.generate_risk_reason`. -/
def sanctions_clauses (e : Entity) : List String :=
  if optBoolTruthy e.sanctions_status then ["Entity is on sanctions list"] else []

/-- Reputation clause of `RiskScorer.generate_risk_reason`:
`entity.reputation_score is not None and entity.reputation_score < 0.3`. -/
def reputation_clauses (e : Entity) : List String :=
  match e.reputation_score with
  | some r => if r < 3/10 then ["Entity has poor reputation based on news analysis"] else []
  | none => []

/-- Per-anomaly clauses of `RiskScorer.generate_risk_reason`, in the given
order (the `if anomalies:` guard is equivalent to mapping over the list,
since an empty list maps to no clauses). -/
def anomaly_clauses : Option (List Anomaly) → List String
  | none => []
  | some l => l.map (fun a => "Anomaly detected: " ++ a.description)

/-- Jurisdiction clause of `RiskScorer.generate_risk_reason`:
`entity.jurisdiction and entity.jurisdiction.lower() in self.high_risk_jurisdictions`. -/
def jurisdiction_clauses (e : Entity) : List String :=
  match e.jurisdiction with
  | none => []
  | some j =>
    if j ≠ "" ∧ (high_risk_jurisdictions.lookup (strLower j)).isSome then
      ["Entity is based in a high-risk jurisdiction (" ++ j ++ ")"]
    else []

/-- `RiskScorer.generate_risk_reason`: the clause lists appended in source
order, with the fallback clause substituted when nothing applies, joined by
`" | ".join(...)`. -/
def generate_risk_reason (e : Entity) (risk_score : ℚ)
    (anomalies : Option (List Anomaly)) : String :=
  let reasons := entity_type_clauses e ++ sanctions_clauses e ++ reputation_clauses e
      ++ anomaly_clauses anomalies ++ jurisdiction_clauses e
  let reasons := if reasons = [] then ["Risk score based on standard entity assessment"] else reasons
  pyJoin " | " reasons

def c2_entity : Entity :=
  { name := "Opaque Holdings"
    type := .SHELL_COMPANY
    confidence_score := 9/10
    evidence_sources := []
    jurisdiction := some "ru"
    sanctions_status := some true
    reputation_score := none }



/-! ## Bounds on the sub-scores (towards C1) -/

theorem entity_type_risk_bounds (t : EntityType) :
    0 ≤ entity_type_risk t ∧ entity_type_risk t ≤ 1 := by
  cases t <;> constructor <;> norm_num [entity_type_risk]

theorem dictGetD_bounds (d : List (String × ℚ)) (k : String) (dflt lo hi : ℚ)
    (hd : lo ≤ dflt ∧ dflt ≤ hi) (hm : ∀ p ∈ d, lo ≤ p.2 ∧ p.2 ≤ hi) :
    lo ≤ dictGetD d k dflt ∧ dictGetD d k dflt ≤ hi := by
  induction d with
  | nil => simpa [dictGetD, List.lookup] using hd
  | cons p t ih =>
    rw [dictGetD, List.lookup]
    cases hb : k == p.1 with
    | true => exact hm p (List.mem_cons_self ..)
    | false =>
      rw [← dictGetD]
      exact ih fun q hq => hm q (List.mem_cons_of_mem _ hq)

theorem calculate_geographic_risk_bounds (j : Option String) :
    0 ≤ calculate_geographic_risk j ∧ calculate_geographic_risk j ≤ 1 := by
  match j with
  | none => norm_num [calculate_geographic_risk]
  | some s =>
    rw [calculate_geographic_risk]
    split
    · norm_num
    · apply dictGetD_bounds
      · norm_num
      · intro p hp
        fin_cases hp <;> norm_num

theorem sanctions_risk_bounds (e : Entity) :
    0 ≤ sanctions_risk e ∧ sanctions_risk e ≤ 1 := by
  rw [sanctions_risk]; split <;> norm_num

theorem reputation_risk_bounds (e : Entity)
    (h : ∀ r, e.reputation_score = some r → 0 ≤ r ∧ r ≤ 1) :
    0 ≤ reputation_risk e ∧ reputation_risk e ≤ 1 := by
  rw [reputation_risk]
  match hr : e.reputation_score with
  | none => norm_num
  | some r =>
    have := h r hr
    constructor <;> linarith [this.1, this.2]

theorem avg_bounds (l : List ℚ) (hne : l ≠ []) (h : ∀ x ∈ l, 0 ≤ x ∧ x ≤ 1) :
    0 ≤ l.sum / l.length ∧ l.sum / l.length ≤ 1 := by
  have hpos : (0 : ℚ) < l.length := by
    exact_mod_cast List.length_pos.mpr hne
  constructor
  · exact div_nonneg (List.sum_nonneg fun x hx => (h x hx).1) hpos.le
  · rw [div_le_one hpos]
    calc l.sum ≤ l.length • (1 : ℚ) := List.sum_le_card_nsmul l 1 fun x hx => (h x hx).2
    _ = l.length := by rw [nsmul_eq_mul, mul_one]

theorem calculate_anomaly_risk_bounds (an : Option (List Anomaly)) (amt : Option ℚ)
    (hsev : ∀ l, an = some l → ∀ a ∈ l, 0 ≤ a.severity ∧ a.severity ≤ 1)
    (hamt : ∀ q, amt = some q → 0 ≤ q) :
    0 ≤ calculate_anomaly_risk an amt ∧ calculate_anomaly_risk an amt ≤ 1 := by
  match han : an with
  | none => norm_num [calculate_anomaly_risk]
  | some [] => norm_num [calculate_anomaly_risk]
  | some (a :: l) =>
    have hl : (a :: l) ≠ [] := by simp
    have havg := avg_bounds ((a :: l).map Anomaly.severity)
      (by simp)
      (by
        intro x hx
        obtain ⟨b, hb, rfl⟩ := List.mem_map.mp hx
        exact hsev (a :: l) rfl b hb)
    rw [List.length_map] at havg
    match hamt2 : amt with
    | none =>
      simpa only [calculate_anomaly_risk] using havg
    | some q =>
      have hq : 0 ≤ q := hamt q rfl
      have hmin : 0 ≤ pymin (q / 1000000) 1 ∧ pymin (q / 1000000) 1 ≤ 1 := by
        rw [pymin_eq_min]
        constructor
        · exact le_min (by positivity) zero_le_one
        · exact min_le_right _ _
      simp only [calculate_anomaly_risk]
      constructor <;> linarith [havg.1, havg.2, hmin.1, hmin.2]

theorem total_risk_bounds (e : Entity) (an : Option (List Anomaly)) (amt : Option ℚ)
    (hrep : ∀ r, e.reputation_score = some r → 0 ≤ r ∧ r ≤ 1)
    (hsev : ∀ l, an = some l → ∀ a ∈ l, 0 ≤ a.severity ∧ a.severity ≤ 1)
    (hamt : ∀ q, amt = some q → 0 ≤ q) :
    0 ≤ total_risk e an amt ∧ total_risk e an amt ≤ 1 := by
  have h1 := entity_type_risk_bounds e.type
  have h2 := sanctions_risk_bounds e
  have h3 := reputation_risk_bounds e hrep
  have h4 := calculate_anomaly_risk_bounds an amt hsev hamt
  have h5 := calculate_geographic_risk_bounds e.jurisdiction
  rw [total_risk]
  constructor <;> nlinarith [h1.1, h1.2, h2.1, h2.2, h3.1, h3.2, h4.1, h4.2, h5.1, h5.2]

theorem clamp_eq_of_bounds (t : ℚ) (h0 : 0 ≤ t) (h1 : t ≤ 1) :
    pymin (pymax t 0) 1 = t := by
  rw [pymin_eq_min, pymax_eq_max, max_eq_left h0, min_eq_left h1]

/-- C1: for every entity, optional anomaly list and optional transaction
amount, `RiskScorer.calculate_risk_score` returns a value in `[0,1]`; and when
the reputation score (if present) is in `[0,1]`, every given anomaly severity
is in `[0,1]`, and the transaction amount (if present) is nonnegative, the
pre-clamp weighted sum is itself already in `[0,1]`, so the clamp returns it
unchanged. -/
theorem C1_risk_score_bounded_and_clamp_trivial :
    (∀ (e : Entity) (an : Option (List Anomaly)) (amt : Option ℚ),
        0 ≤ calculate_risk_score e an amt ∧ calculate_risk_score e an amt ≤ 1)
    ∧ (∀ (e : Entity) (an : Option (List Anomaly)) (amt : Option ℚ),
        (∀ r, e.reputation_score = some r → 0 ≤ r ∧ r ≤ 1) →
        (∀ l, an = some l → ∀ a ∈ l, 0 ≤ a.severity ∧ a.severity ≤ 1) →
        (∀ q, amt = some q → 0 ≤ q) →
        (0 ≤ total_risk e an amt ∧ total_risk e an amt ≤ 1)
          ∧ calculate_risk_score e an amt = total_risk e an amt) := by
  constructor
  · intro e an amt
    rw [calculate_risk_score, pymin_eq_min, pymax_eq_max]
    constructor
    · exact le_min (le_max_right _ _) zero_le_one
    · exact min_le_right _ _
  · intro e an amt hrep hsev hamt
    have hb := total_risk_bounds e an amt hrep hsev hamt
    exact ⟨hb, by rw [calculate_risk_score, clamp_eq_of_bounds _ hb.1 hb.2]⟩

def c1_entity : Entity :=
  { name := "Acme Corp"
    type := .CORPORATION
    confidence_score := 1
    evidence_sources := [] }

theorem C1_witness :
    (0 ≤ calculate_risk_score c1_entity none none
      ∧ calculate_risk_score c1_entity none none ≤ 1)
    ∧ ((0 ≤ total_risk c1_entity none none ∧ total_risk c1_entity none none ≤ 1)
      ∧ calculate_risk_score c1_entity none none = total_risk c1_entity none none) := by
  refine ⟨C1_risk_score_bounded_and_clamp_trivial.1 c1_entity none none,
    C1_risk_score_bounded_and_clamp_trivial.2 c1_entity none none ?_ ?_ ?_⟩
  · intro r hr
    have : r = 0 := by
      have : (some (0 : ℚ)) = some r := hr
      injection this with h
      exact h.symm
    subst this
    norm_num
  · intro l hl
    cases hl
  · intro q hq
    cases hq

/-- C2: a sanctioned shell company registered in "ru" with an absent
(`None`) reputation score and no anomalies scores exactly
`0.30*0.8 + 0.25*0.8 + 0.20*0.5 + 0.15*0.0 + 0.10*0.8 = 0.62`, as an exact
equation of rationals. -/
theorem C2_sanctioned_shell_ru_exact_score :
    calculate_risk_score c2_entity none none
        = (30/100) * (8/10) + (25/100) * (8/10) + (20/100) * (5/10)
          + (15/100) * 0 + (10/100) * (8/10)
      ∧ calculate_risk_score c2_entity none none = 62/100 := by
  have hgeo : calculate_geographic_risk (some "ru") = 8/10 := rfl
  have htot : total_risk c2_entity none none = 62/100 := by
    rw [total_risk]
    show entity_type_risk .SHELL_COMPANY * (3/10)
        + sanctions_risk c2_entity * (25/100)
        + reputation_risk c2_entity * (2/10)
        + calculate_anomaly_risk none none * (15/100)
        + calculate_geographic_risk (some "ru") * (1/10) = 62/100
    rw [hgeo]
    norm_num [entity_type_risk, sanctions_risk, reputation_risk,
      calculate_anomaly_risk, c2_entity, optBoolTruthy]
  have hscore : calculate_risk_score c2_entity none none = 62/100 := by
    rw [calculate_risk_score, htot, clamp_eq_of_bounds] <;> norm_num
  exact ⟨by rw [hscore]; norm_num, hscore⟩

/-- An `Entity` constructed giving only the four required fields, all optional
fields taking their pydantic defaults. -/
def mkEntityDefault (n : String) (t : EntityType) (c : ℚ) (es : List String) : Entity :=
  { name := n, type := t, confidence_score := c, evidence_sources := es }

/-- C10: an `Entity` built without an explicit `reputation_score` receives the
pydantic field default `0.0` (not `None`), so the scorer computes reputation
risk `1 - 0 = 1`; the neutral `0.5` is used only when `reputation_score` is
explicitly `None`. -/
theorem C10_default_reputation_zero_means_max_risk :
    (∀ (n : String) (t : EntityType) (c : ℚ) (es : List String),
        (mkEntityDefault n t c es).reputation_score = some 0
          ∧ reputation_risk (mkEntityDefault n t c es) = 1)
    ∧ (∀ e : Entity, e.reputation_score = none → reputation_risk e = 1/2) := by
  constructor
  · intro n t c es
    refine ⟨rfl, ?_⟩
    rw [reputation_risk]
    show (1 : ℚ) - 0 = 1
    norm_num
  · intro e h
    rw [reputation_risk, h]

theorem C10_witness :
    ((mkEntityDefault "Plain Org" .UNKNOWN 1 []).reputation_score = some 0
      ∧ reputation_risk (mkEntityDefault "Plain Org" .UNKNOWN 1 []) = 1)
    ∧ reputation_risk c2_entity = 1/2 :=
  ⟨C10_default_reputation_zero_means_max_risk.1 "Plain Org" .UNKNOWN 1 [],
   C10_default_reputation_zero_means_max_risk.2 c2_entity rfl⟩

/-! ## C8: the reason string -/

theorem str_of_length_zero (x : String) (h : x.length = 0) : x = "" := by
  cases x with
  | mk d =>
    have hd : d.length = 0 := h
    have hnil : d = [] := List.length_eq_zero.mp hd
    subst hnil
    rfl

theorem pyJoin_cons_ne_empty (sep x : String) (xs : List String) (hx : x ≠ "") :
    pyJoin sep (x :: xs) ≠ "" := by
  cases xs with
  | nil => simpa [pyJoin] using hx
  | cons y ys =>
    rw [pyJoin]
    intro h
    apply hx
    have hlen := congrArg String.length h
    rw [String.length_append, String.length_append] at hlen
    have hz : ("" : String).length = 0 := rfl
    rw [hz] at hlen
    exact str_of_length_zero x (by omega)

/-- Every clause string ever placed in the `reasons` list is nonempty. -/
theorem clause_ne_empty (e : Entity) (an : Option (List Anomaly)) (c : String)
    (hc : c ∈ entity_type_clauses e ++ sanctions_clauses e ++ reputation_clauses e
        ++ anomaly_clauses an ++ jurisdiction_clauses e) : c ≠ "" := by
  simp only [List.mem_append] at hc
  rcases hc with ((((h | h) | h) | h) | h)
  · rw [entity_type_clauses] at h
    split at h
    · simp only [List.mem_singleton] at h
      subst h
      decide
    · split at h
      · simp only [List.mem_singleton] at h
        subst h
        decide
      · cases h
  · rw [sanctions_clauses] at h
    split at h
    · simp only [List.mem_singleton] at h
      subst h
      decide
    · cases h
  · rw [reputation_clauses] at h
    split at h
    next r heq =>
      split at h
      · simp only [List.mem_singleton] at h
        subst h
        decide
      · cases h
    next heq => cases h
  · match han : an with
    | none => simp [anomaly_clauses] at h
    | some l =>
      rw [anomaly_clauses] at h
      obtain ⟨a, _, rfl⟩ := List.mem_map.mp h
      intro h0
      have hlen := congrArg String.length h0
      rw [String.length_append] at hlen
      have h18 : ("Anomaly detected: " : String).length = 18 := rfl
      have hz : ("" : String).length = 0 := rfl
      rw [h18, hz] at hlen
      omega
  · rw [jurisdiction_clauses] at h
    split at h
    next heq => cases h
    next j heq =>
      split at h
      · simp only [List.mem_singleton] at h
        subst h
        intro h0
        have hlen := congrArg String.length h0
        rw [String.length_append, String.length_append] at hlen
        have h42 : ("Entity is based in a high-risk jurisdiction (" : String).length = 45 := rfl
        have hz : ("" : String).length = 0 := rfl
        rw [h42, hz] at hlen
        omega
      · cases h

/-- C8: `generate_risk_reason` always yields a nonempty string; it is exactly
the `" | "`-join of the clause lists in the fixed source order entity-type,
sanctions, reputation, per-anomaly (in the given order), jurisdiction, with
the fallback clause substituted when the list is empty; and when no clause
condition applies it equals exactly the fallback clause. -/
theorem C8_generate_risk_reason_spec :
    (∀ (e : Entity) (s : ℚ) (an : Option (List Anomaly)),
        generate_risk_reason e s an ≠ "")
    ∧ (∀ (e : Entity) (s : ℚ) (an : Option (List Anomaly)),
        generate_risk_reason e s an = pyJoin " | "
          (if entity_type_clauses e ++ sanctions_clauses e ++ reputation_clauses e
              ++ anomaly_clauses an ++ jurisdiction_clauses e = []
           then ["Risk score based on standard entity assessment"]
           else entity_type_clauses e ++ sanctions_clauses e ++ reputation_clauses e
              ++ anomaly_clauses an ++ jurisdiction_clauses e))
    ∧ (∀ (e : Entity) (s : ℚ) (an : Option (List Anomaly)),
        e.type ≠ .SHELL_COMPANY → e.type ≠ .FINANCIAL_INTERMEDIARY →
        optBoolTruthy e.sanctions_status = false →
        (∀ r, e.reputation_score = some r → ¬ r < 3/10) →
        (an = none ∨ an = some []) →
        (∀ j, e.jurisdiction = some j →
            j = "" ∨ (high_risk_jurisdictions.lookup (strLower j)) = none) →
        generate_risk_reason e s an = "Risk score based on standard entity assessment") := by
  refine ⟨?_, ?_, ?_⟩
  · intro e s an
    rw [generate_risk_reason]
    split
    · decide
    next hne =>
      match hl : entity_type_clauses e ++ sanctions_clauses e ++ reputation_clauses e
          ++ anomaly_clauses an ++ jurisdiction_clauses e with
      | [] => exact absurd hl hne
      | c :: cs =>
        exact pyJoin_cons_ne_empty _ c cs (clause_ne_empty e an c (hl ▸ List.mem_cons_self c cs))
  · intro e s an
    rfl
  · intro e s an h1 h2 h3 h4 h5 h6
    have he1 : entity_type_clauses e = [] := by
      rw [entity_type_clauses, if_neg h1, if_neg h2]
    have he2 : sanctions_clauses e = [] := by
      rw [sanctions_clauses, h3]
      rfl
    have he3 : reputation_clauses e = [] := by
      match hr : e.reputation_score with
      | none => simp [reputation_clauses, hr]
      | some r => simp [reputation_clauses, hr, h4 r hr]
    have he4 : anomaly_clauses an = [] := by
      rcases h5 with h | h <;> rw [h] <;> rfl
    have he5 : jurisdiction_clauses e = [] := by
      match hj : e.jurisdiction with
      | none => simp [jurisdiction_clauses, hj]
      | some j =>
        rcases h6 j hj with h | h
        · simp [jurisdiction_clauses, hj, h]
        · simp [jurisdiction_clauses, hj, h]
    rw [generate_risk_reason, he1, he2, he3, he4, he5]
    rfl

def c8_entity : Entity :=
  { name := "Plain Org"
    type := .CORPORATION
    confidence_score := 1
    evidence_sources := []
    reputation_score := none }

theorem C8_witness :
    generate_risk_reason c8_entity (1/2) none ≠ ""
    ∧ generate_risk_reason c8_entity (1/2) none
        = "Risk score based on standard entity assessment" := by
  refine ⟨C8_generate_risk_reason_spec.1 c8_entity (1/2) none,
    C8_generate_risk_reason_spec.2.2 c8_entity (1/2) none ?_ ?_ ?_ ?_ ?_ ?_⟩
  · decide
  · decide
  · rfl
  · intro r hr
    cases hr
  · exact Or.inl rfl
  · intro j hj
    cases hj

/-! ## EntityExtractor (services/entity_extractor.py) -/

/-- The `nonprofit_indicators` regex list: all patterns are end-anchored
literals (`foundation$`, ...), i.e. suffix tests on the lower-cased name. -/
def nonprofit_indicators : List String :=
  ["foundation", "charity", "ngo", "non-profit", "nonprofit",
   "association", "society", "trust"]

/-- The `shell_indicators` regex list (end-anchored literals). -/
def shell_indicators : List String :=
  ["holdings", "investments", "group", "capital", "partners",
   "management", "consulting", "advisory"]

/-- The `company_suffixes` regex list, expanded: the optional-dot patterns
accept both endings ("inc" and "inc.", etc.); the rest are end-anchored
literals, with escaped dots taken literally. -/
def company_suffix_endings : List String :=
  ["inc", "inc.", "corp", "corp.", "corporation", "ltd", "ltd.", "limited",
   "llc", "gmbh", "s.a.", "s.p.a.", "plc"]

/-- Government indicator words (plain substring tests). -/
def government_indicators : List String :=
  ["government", "ministry", "department", "agency"]

/-- Financial-intermediary indicator words (plain substring tests). -/
def financial_indicators : List String :=
  ["bank", "financial", "investment", "fund"]

/-- `EntityExtractor._classify_entity_type`: lower-case the name and check
the indicator groups in a fixed order, returning on the first match.  The
first three groups are suffix tests (the regexes are `pattern$`); the last
two are substring tests (`word in entity_name`). -/
def classify_entity_type (entity_name : String) : EntityType :=
  let n := strLower entity_name
  if nonprofit_indicators.any (fun p => strEndsWith n p) then .NON_PROFIT
  else if shell_indicators.any (fun p => strEndsWith n p) then .SHELL_COMPANY
  else if company_suffix_endings.any (fun p => strEndsWith n p) then .CORPORATION
  else if government_indicators.any (fun w => strContains n w) then .GOVERNMENT_AGENCY
  else if financial_indicators.any (fun w => strContains n w) then .FINANCIAL_INTERMEDIARY
  else .UNKNOWN

/-- C3 counterexample: the claim predicts NonProfit for
"Example Foundation Inc", but the non-profit indicators are end-anchored, the
lower-cased name ends in "inc", and the classifier returns Corporation. -/
theorem C3_counterexample_foundation_inc :
    classify_entity_type "Example Foundation Inc" = EntityType.CORPORATION
    ∧ classify_entity_type "Example Foundation Inc" ≠ EntityType.NON_PROFIT := by
  constructor <;> decide

/-- C3 amended: the classifier does check non-profit indicators before
corporate-suffix indicators and returns on the first match — any name whose
lower-cased form ends in a non-profit indicator is classified NonProfit — but
the indicators are suffix tests, so "Example Foundation Inc" (which ends in
"inc", not "foundation") is classified Corporation, while
"Example Foundation" is classified NonProfit. -/
theorem C3_amended_nonprofit_priority :
    (∀ name : String,
        nonprofit_indicators.any (fun p => strEndsWith (strLower name) p) = true →
        classify_entity_type name = EntityType.NON_PROFIT)
    ∧ classify_entity_type "Example Foundation" = EntityType.NON_PROFIT
    ∧ classify_entity_type "Example Foundation Inc" = EntityType.CORPORATION := by
  refine ⟨?_, by decide, by decide⟩
  intro name h
  rw [classify_entity_type]
  simp only [h, if_true]

theorem C3_witness :
    nonprofit_indicators.any (fun p => strEndsWith (strLower "Example Trust") p) = true
    ∧ classify_entity_type "Example Trust" = EntityType.NON_PROFIT :=
  ⟨by decide, C3_amended_nonprofit_priority.1 "Example Trust" (by decide)⟩

/-! ## Dates, timestamps and the float modulo -/

/-- Python float `a % b` for the positive moduli the code uses:
`a - b * floor(a / b)` (the remainder's sign follows the divisor). -/
def qmod (a b : ℚ) : ℚ := a - b * ⌊a / b⌋

/-- Calendar-day index of a timestamp (seconds): `datetime.date()` collapses
a timestamp to its day, i.e. floor-divides by 86400. -/
def dayOf (t : ℚ) : ℤ := ⌊t / 86400⌋

/-- Python `(now - midnight_of_day d).days`: `timedelta.days` floors the
difference measured in days. -/
def daysSince (now : ℚ) (d : ℤ) : ℤ := ⌊(now - 86400 * (d : ℚ)) / 86400⌋

/-- Gregorian leap-year test. -/
def isLeapYear (y : ℕ) : Bool := (y % 4 == 0 && y % 100 != 0) || y % 400 == 0

/-- Number of days in a month of a given year. -/
def daysInMonth (y m : ℕ) : ℕ :=
  if m == 2 then (if isLeapYear y then 29 else 28)
  else if m == 4 || m == 6 || m == 9 || m == 11 then 30
  else 31

/-- Day number (days since 1970-01-01) of a civil date, valid for years ≥ 1
(the standard civil-from-days algorithm restricted to the nonnegative era). -/
def daysFromCivil (y m d : ℕ) : ℤ :=
  let yy := if m ≤ 2 then y - 1 else y
  let era := yy / 400
  let yoe := yy - era * 400
  let mp := if m > 2 then m - 3 else m + 9
  let doy := (153 * mp + 2) / 5 + d - 1
  let doe := yoe * 365 + yoe / 4 - yoe / 100 + doy
  ((era * 146097 + doe : ℕ) : ℤ) - 719468

/-- Python `str.split('-')` on character data (keeps empty groups). -/
def splitDash : List Char → List (List Char)
  | [] => [[]]
  | c :: cs =>
    match splitDash cs with
    | [] => [[]]
    | g :: gs => if c = '-' then [] :: g :: gs else (c :: g) :: gs

/-- Numeric value of a digit string. -/
def digitsToNat (l : List Char) : ℕ :=
  l.foldl (fun n c => 10 * n + (c.toNat - 48)) 0

/-- Nonempty and all characters are decimal digits. -/
def isAllDigits (l : List Char) : Bool := !l.isEmpty && l.all Char.isDigit

/-- Embedding of `datetime.strptime(s, "%Y-%m-%d")`, returning the date's day
number on success: three dash-separated all-digit groups, the year of exactly
4 digits (the `%Y` pattern matches `\\d\\d\\d\\d`) and the month and day of 1
or 2 digits, with a year in 1..9999, a month in 1..12, and a day valid for
that month; anything else fails (`ValueError` in Python, `none` here). -/
def parseDate (s : String) : Option ℤ :=
  match splitDash s.data with
  | [ys, ms, ds] =>
    if isAllDigits ys ∧ isAllDigits ms ∧ isAllDigits ds
        ∧ ys.length = 4 ∧ ms.length ≤ 2 ∧ ds.length ≤ 2 then
      let y := digitsToNat ys
      let m := digitsToNat ms
      let d := digitsToNat ds
      if 1 ≤ y ∧ y ≤ 9999 ∧ 1 ≤ m ∧ m ≤ 12 ∧ 1 ≤ d ∧ d ≤ daysInMonth y m then
        some (daysFromCivil y m d)
      else none
    else none
  | _ => none

/-! ## FakeDataGenerator.generate_fake_anomalies (services/fake_data_generator.py) -/

/-- The `self.country_risk` table of `FakeDataGenerator.__init__`
(upper-case keys). -/
def country_risk : List (String × ℚ) :=
  [("RU", 8/10), ("CN", 7/10), ("IR", 9/10), ("KP", 9/10), ("SY", 8/10),
   ("VE", 7/10), ("MM", 7/10), ("ZW", 6/10), ("US", 2/10), ("GB", 2/10),
   ("DE", 2/10), ("FR", 2/10), ("CA", 2/10)]

/-- High-risk-jurisdiction rule of `FakeDataGenerator.generate_fake_anomalies`:
an exact dict-key membership test on `entity.jurisdiction` (`None` is never a
member), emitting the table weight as severity when it exceeds 0.6. -/
def fake_jurisdiction_anomalies (e : Entity) : List Anomaly :=
  match e.jurisdiction with
  | none => []
  | some j =>
    match country_risk.lookup j with
    | none => []
    | some w =>
      if w > 6/10 then
        [⟨"high_risk_jurisdiction", w, "Entity in high-risk jurisdiction: " ++ j,
          ["Entity jurisdiction is " ++ j]⟩]
      else []

/-- Shell-company rule of `FakeDataGenerator.generate_fake_anomalies`. -/
def fake_shell_anomalies (e : Entity) : List Anomaly :=
  if e.type = .SHELL_COMPANY then
    [⟨"shell_company", 8/10, "Entity appears to be a shell company: " ++ e.name,
      ["Entity classification", "Structure analysis"]⟩]
  else []

/-- Recently-formed-entity rule of `FakeDataGenerator.generate_fake_anomalies`.
The `try/except ValueError` around `strptime` is the `none` branch of
`parseDate`: an unparsable (or empty, hence falsy) incorporation date emits
nothing and raises nothing. -/
def fake_new_entity_anomalies (e : Entity) (now : ℚ) : List Anomaly :=
  match e.incorporation_date with
  | none => []
  | some str =>
    match parseDate str with
    | none => []
    | some d =>
      if daysSince now d < 180 then
        [⟨"new_entity", 6/10, "Recently formed entity: " ++ e.name,
          ["Incorporation date: " ++ str]⟩]
      else []

/-- Per-entity anomalies of `FakeDataGenerator.generate_fake_anomalies`, in
source order. -/
def fake_entity_anomalies (e : Entity) (now : ℚ) : List Anomaly :=
  fake_jurisdiction_anomalies e ++ fake_shell_anomalies e
    ++ fake_new_entity_anomalies e now

/-- Large-transaction rule of `FakeDataGenerator.generate_fake_anomalies`. -/
def fake_large_anomalies (amount : ℚ) : List Anomaly :=
  if amount > 1000000 then
    [⟨"large_transaction", pymin (amount / 1000000) 1,
      "Large transaction amount: " ++ toString amount,
      ["Transaction amount exceeds threshold"]⟩]
  else []

/-- Round-amount rule of `FakeDataGenerator.generate_fake_anomalies`:
`amount % 1000 == 0 and amount > 10000`. -/
def fake_round_anomalies (amount : ℚ) : List Anomaly :=
  if qmod amount 1000 = 0 ∧ amount > 10000 then
    [⟨"round_amount", 7/10, "Round number transaction: " ++ toString amount,
      ["Transaction amount is a round number"]⟩]
  else []

/-- `FakeDataGenerator.generate_fake_anomalies` (the stateless,
transaction-level anomaly variant): large transaction, round amount, then the
per-entity anomalies in entity order. -/
def generate_fake_anomalies (amount : ℚ) (entities : List Entity) (now : ℚ) : List Anomaly :=
  fake_large_anomalies amount ++ fake_round_anomalies amount
    ++ entities.flatMap (fun e => fake_entity_anomalies e now)

theorem qmod_eq_zero_iff (a b : ℚ) (hb : b ≠ 0) :
    qmod a b = 0 ↔ ∃ k : ℤ, a = b * k := by
  constructor
  · intro h
    exact ⟨⌊a / b⌋, by rw [qmod, sub_eq_zero] at h; exact h⟩
  · rintro ⟨k, rfl⟩
    rw [qmod, mul_div_cancel_left₀ _ hb, Int.floor_intCast, sub_self]

/-! ## C6: the high_risk_jurisdiction rule is case-sensitive -/

def c6_entity : Entity :=
  { name := "Gazprom Trading"
    type := .CORPORATION
    confidence_score := 1
    evidence_sources := []
    jurisdiction := some "ru" }

/-- C6 counterexample: the jurisdiction "ru" matches the table key "RU"
case-insensitively with weight 0.8 > 0.6, yet `generate_fake_anomalies` emits
nothing at all for such an entity — the membership test
`entity.jurisdiction in self.country_risk` is exact (case-sensitive) against
the upper-case keys. -/
theorem C6_counterexample_lowercase_ru :
    strLower "ru" = strLower "RU"
    ∧ country_risk.lookup "RU" = some (8/10)
    ∧ ((8:ℚ)/10 > 6/10)
    ∧ c6_entity.jurisdiction = some "ru"
    ∧ generate_fake_anomalies 500 [c6_entity] 0 = [] := by
  refine ⟨rfl, rfl, by norm_num, rfl, ?_⟩
  rw [generate_fake_anomalies, fake_large_anomalies, fake_round_anomalies]
  rw [if_neg (by norm_num), if_neg (by rintro ⟨-, h⟩; norm_num at h)]
  have hent : fake_entity_anomalies c6_entity 0 = [] := rfl
  simp [hent]

/-- C6 amended: in the stateless variant, a `high_risk_jurisdiction` anomaly
with the table weight as severity is emitted for every entity whose
jurisdiction is EXACTLY a key of the high-risk table (a case-sensitive
lookup against the upper-case keys) with weight > 0.6. -/
theorem C6_amended_exact_jurisdiction_match
    (amount now : ℚ) (entities : List Entity) (e : Entity) (j : String) (w : ℚ)
    (he : e ∈ entities) (hj : e.jurisdiction = some j)
    (hw : country_risk.lookup j = some w) (hgt : w > 6/10) :
    (⟨"high_risk_jurisdiction", w, "Entity in high-risk jurisdiction: " ++ j,
      ["Entity jurisdiction is " ++ j]⟩ : Anomaly)
      ∈ generate_fake_anomalies amount entities now := by
  rw [generate_fake_anomalies]
  refine List.mem_append_right _ ?_
  rw [List.mem_flatMap]
  refine ⟨e, he, ?_⟩
  rw [fake_entity_anomalies]
  refine List.mem_append_left _ (List.mem_append_left _ ?_)
  rw [fake_jurisdiction_anomalies]
  simp only [hj, hw]
  rw [if_pos hgt]
  exact List.mem_cons_self _ _

def c6_ru_entity : Entity :=
  { name := "Gazprom Trading"
    type := .CORPORATION
    confidence_score := 1
    evidence_sources := []
    jurisdiction := some "RU" }

theorem C6_witness :
    (⟨"high_risk_jurisdiction", 8/10, "Entity in high-risk jurisdiction: " ++ "RU",
      ["Entity jurisdiction is " ++ "RU"]⟩ : Anomaly)
      ∈ generate_fake_anomalies 500 [c6_ru_entity] 0 :=
  C6_amended_exact_jurisdiction_match 500 0 [c6_ru_entity] c6_ru_entity "RU" (8/10)
    (List.mem_cons_self _ _) rfl rfl (by norm_num)

/-! ## C7: the incorporation-date new_entity rule -/

/-- One recorded transaction in the in-memory history. -/
structure TxnRecord where
  time : ℚ
  amount : ℚ
  currency : String

/-- Per-entity history entry (`self.transaction_history[name]`): transaction
list, per-day summed amounts, first-seen time. -/
structure EntityHistory where
  transactions : List TxnRecord
  daily_amounts : ℤ → Option ℚ
  first_seen : ℚ

/-- The detector's mutable `self.transaction_history` dict, modelled as a
function from entity name to optional history entry. -/
abbrev HistoryState := String → Option EntityHistory

/-- A fresh detector's empty history dict. -/
def emptyState : HistoryState := fun _ => none

/-- `AnomalyDetector._cleanup_transaction_history` (with the wall clock
injected): keep only transactions strictly newer than `now - 30 days` and
per-day sums for days strictly after the cutoff day. -/
def cleanup_history (h : EntityHistory) (now : ℚ) : EntityHistory :=
  { h with
    transactions := h.transactions.filter (fun t => decide (t.time > now - 30 * 86400))
    daily_amounts := fun d =>
      if d > dayOf (now - 30 * 86400) then h.daily_amounts d else none }

/-- `AnomalyDetector._update_transaction_history`: create the entry on first
sight, append the transaction, add the amount into today's daily sum, then
prune to the 30-day window. -/
def update_transaction_history (st : HistoryState) (entity_name : String)
    (amount : ℚ) (currency : String) (now : ℚ) : HistoryState :=
  let h0 : EntityHistory := match st entity_name with
    | some h => h
    | none => ⟨[], fun _ => none, now⟩
  let h1 := { h0 with transactions := h0.transactions ++ [(⟨now, amount, currency⟩ : TxnRecord)] }
  let h2 := { h1 with
    daily_amounts := fun d =>
      if d = dayOf now then some ((h1.daily_amounts (dayOf now)).getD 0 + amount)
      else h1.daily_amounts d }
  fun n => if n = entity_name then some (cleanup_history h2 now) else st n

/-- `AnomalyDetector._check_transaction_frequency`: strictly more than 5 of
the entity's recorded transactions are dated today. -/
def check_transaction_frequency (st : HistoryState) (entity_name : String) (now : ℚ) : Bool :=
  match st entity_name with
  | none => false
  | some h =>
    decide (5 < h.transactions.countP (fun t => decide (dayOf t.time = dayOf now)))

/-- `AnomalyDetector._check_transaction_velocity`: today's summed amount
exceeds 100,000. -/
def check_transaction_velocity (st : HistoryState) (entity_name : String) (now : ℚ) : Bool :=
  match st entity_name with
  | none => false
  | some h => decide (100000 < (h.daily_amounts (dayOf now)).getD 0)

/-- `AnomalyDetector._is_new_entity`: unseen, or first seen < 30 days ago. -/
def is_new_entity (st : HistoryState) (entity_name : String) (now : ℚ) : Bool :=
  match st entity_name with
  | none => true
  | some h => decide (⌊(now - h.first_seen) / 86400⌋ < 30)

/-- `AnomalyDetector._is_round_number`: `amount % 1000 == 0` (no lower bound,
unlike the transaction-level variant). -/
def is_round_number (amount : ℚ) : Bool := decide (qmod amount 1000 = 0)

/-- Large-transaction anomaly of `AnomalyDetector.detect_anomalies`. -/
def detector_large_anomalies (amount : ℚ) (currency : String) : List Anomaly :=
  if amount > 1000000 then
    [⟨"large_transaction", pymin (amount / 1000000) 1,
      "Large transaction amount: " ++ toString amount ++ " " ++ currency,
      ["Transaction amount exceeds threshold"]⟩]
  else []

/-- Round-number anomaly of `AnomalyDetector.detect_anomalies`. -/
def detector_round_anomalies (amount : ℚ) (currency : String) : List Anomaly :=
  if is_round_number amount then
    [⟨"round_amount", 7/10,
      "Round number transaction: " ++ toString amount ++ " " ++ currency,
      ["Transaction amount is a round number"]⟩]
  else []

/-- Per-entity loop body of `AnomalyDetector.detect_anomalies`: record the
transaction into the history, then run the frequency, velocity and
new-entity checks against the updated history, appending matching anomalies
in source order. -/
def detect_entity_step (amount : ℚ) (currency : String) (now : ℚ)
    (acc : List Anomaly × HistoryState) (e : Entity) : List Anomaly × HistoryState :=
  let st1 := update_transaction_history acc.2 e.name amount currency now
  let a1 := if check_transaction_frequency st1 e.name now then
      acc.1 ++ [⟨"high_frequency", 8/10, "High transaction frequency for " ++ e.name,
        ["Transaction frequency exceeds threshold"]⟩]
    else acc.1
  let a2 := if check_transaction_velocity st1 e.name now then
      a1 ++ [⟨"high_velocity", 8/10, "High transaction velocity for " ++ e.name,
        ["Transaction velocity exceeds threshold"]⟩]
    else a1
  let a3 := if is_new_entity st1 e.name now then
      a2 ++ [⟨"new_entity", 6/10, "New entity detected: " ++ e.name,
        ["Entity is new to the system"]⟩]
    else a2
  (a3, st1)

/-- `AnomalyDetector.detect_anomalies` (the stateful variant, wall clock
injected): amount-based checks first, then the stateful per-entity checks in
entity order; returns the anomaly list and the mutated history dict. -/
def detect_anomalies (st : HistoryState) (amount : ℚ) (currency : String)
    (entities : List Entity) (now : ℚ) : List Anomaly × HistoryState :=
  entities.foldl (detect_entity_step amount currency now)
    (detector_large_anomalies amount currency ++ detector_round_anomalies amount currency, st)

/-! ## C4: the round_amount rule in both variants -/

/-- Recognizes a `round_amount` anomaly with severity 0.7. -/
def isRoundAnomaly (an : Anomaly) : Bool :=
  an.type == "round_amount" && an.severity == 7/10

theorem detector_large_no_round (amount : ℚ) (currency : String) :
    (detector_large_anomalies amount currency).any isRoundAnomaly = false := by
  rw [detector_large_anomalies]
  split <;> rfl

theorem detector_round_any (amount : ℚ) (currency : String) :
    (detector_round_anomalies amount currency).any isRoundAnomaly
      = is_round_number amount := by
  rw [detector_round_anomalies]
  split
  next h => rw [h]; simp [isRoundAnomaly]
  next h =>
    simp only [Bool.not_eq_true] at h
    rw [h]
    rfl

theorem fake_large_no_round (amount : ℚ) :
    (fake_large_anomalies amount).any isRoundAnomaly = false := by
  rw [fake_large_anomalies]
  split <;> rfl

theorem fake_round_any (amount : ℚ) :
    (fake_round_anomalies amount).any isRoundAnomaly
      = decide (qmod amount 1000 = 0 ∧ amount > 10000) := by
  rw [fake_round_anomalies]
  split
  next h => rw [decide_eq_true h]; simp [isRoundAnomaly]
  next h => rw [decide_eq_false h]; rfl

/-- C4: the detector's round-amount rule flags exactly the multiples of 1000
(severity 0.7), the transaction-level variant additionally requires the
amount to exceed 10,000, and concretely amount 5000 produces a round_amount
anomaly while 5001 does not. -/
theorem C4_round_amount_rule :
    (∀ (amount now : ℚ) (currency : String),
        ((detect_anomalies emptyState amount currency [] now).1.any isRoundAnomaly = true)
          ↔ qmod amount 1000 = 0)
    ∧ (∀ (amount now : ℚ),
        ((generate_fake_anomalies amount [] now).any isRoundAnomaly = true)
          ↔ (qmod amount 1000 = 0 ∧ amount > 10000))
    ∧ ((detect_anomalies emptyState 5000 "USD" [] 0).1.any isRoundAnomaly = true)
    ∧ ((detect_anomalies emptyState 5001 "USD" [] 0).1.any isRoundAnomaly = false) := by
  have p1 : ∀ (amount now : ℚ) (currency : String),
      ((detect_anomalies emptyState amount currency [] now).1.any isRoundAnomaly = true)
        ↔ qmod amount 1000 = 0 := by
    intro amount now currency
    rw [detect_anomalies]
    simp only [List.foldl_nil, List.any_append, detector_large_no_round,
      detector_round_any, Bool.false_or, is_round_number, decide_eq_true_eq]
  have p2 : ∀ (amount now : ℚ),
      ((generate_fake_anomalies amount [] now).any isRoundAnomaly = true)
        ↔ (qmod amount 1000 = 0 ∧ amount > 10000) := by
    intro amount now
    rw [generate_fake_anomalies]
    simp only [List.flatMap_nil, List.append_nil, List.any_append,
      fake_large_no_round, fake_round_any, Bool.false_or, decide_eq_true_eq]
  refine ⟨p1, p2, ?_, ?_⟩
  · refine (p1 5000 0 "USD").mpr ?_
    rw [qmod_eq_zero_iff _ _ (by norm_num : (1000:ℚ) ≠ 0)]
    exact ⟨5, by norm_num⟩
  · refine Bool.eq_false_iff.mpr fun h => ?_
    have h0 := (p1 5001 0 "USD").mp h
    rw [qmod_eq_zero_iff _ _ (by norm_num : (1000:ℚ) ≠ 0)] at h0
    obtain ⟨k, hk⟩ := h0
    have : (5001 : ℤ) = 1000 * k := by exact_mod_cast hk
    omega

/-! ## C9: the 30-day pruning invariant -/

theorem cleanup_history_window (h : EntityHistory) (now : ℚ) :
    (∀ t ∈ (cleanup_history h now).transactions, t.time > now - 30 * 86400)
    ∧ (∀ d : ℤ, ((cleanup_history h now).daily_amounts d).isSome = true
        → d > dayOf (now - 30 * 86400)) := by
  constructor
  · intro t ht
    rw [cleanup_history] at ht
    dsimp only at ht
    simp only [List.mem_filter, decide_eq_true_eq] at ht
    exact ht.2
  · intro d hd
    rw [cleanup_history] at hd
    dsimp only at hd
    by_cases hday : d > dayOf (now - 30 * 86400)
    · exact hday
    · rw [if_neg hday] at hd
      cases hd

/-- C9: after every history update (every recorded transaction), the updated
entity's stored transaction list holds only entries strictly newer than
30 days before the injected current time, and its per-day amount map holds
only days strictly after the 30-day cutoff day. -/
theorem C9_history_window_invariant (st : HistoryState) (name : String)
    (amount : ℚ) (currency : String) (now : ℚ) (h : EntityHistory)
    (hl : update_transaction_history st name amount currency now name = some h) :
    (∀ t ∈ h.transactions, t.time > now - 30 * 86400)
    ∧ (∀ d : ℤ, (h.daily_amounts d).isSome = true → d > dayOf (now - 30 * 86400)) := by
  rw [update_transaction_history] at hl
  dsimp only at hl
  rw [if_pos rfl] at hl
  obtain rfl : cleanup_history _ now = h := by injection hl
  exact cleanup_history_window _ now

/-- The history entry produced by one recorded transaction from a fresh
detector. -/
def c9_history : EntityHistory :=
  ((update_transaction_history emptyState "Acme Corp" 500 "USD" 0) "Acme Corp").getD
    ⟨[], fun _ => none, 0⟩

theorem C9_witness :
    (∀ t ∈ c9_history.transactions, t.time > (0:ℚ) - 30 * 86400)
    ∧ (∀ d : ℤ, (c9_history.daily_amounts d).isSome = true
        → d > dayOf ((0:ℚ) - 30 * 86400)) :=
  C9_history_window_invariant emptyState "Acme Corp" 500 "USD" 0 c9_history rfl

/-! ## C5: high_frequency fires exactly from the sixth same-day call -/

/-- Recognizes a `high_frequency` anomaly with severity 0.8. -/
def isHighFrequencyAnomaly (an : Anomaly) : Bool :=
  an.type == "high_frequency" && an.severity == 8/10

theorem detector_large_no_hf (amount : ℚ) (currency : String) :
    (detector_large_anomalies amount currency).any isHighFrequencyAnomaly = false := by
  rw [detector_large_anomalies]
  split <;> rfl

theorem detector_round_no_hf (amount : ℚ) (currency : String) :
    (detector_round_anomalies amount currency).any isHighFrequencyAnomaly = false := by
  rw [detector_round_anomalies]
  split <;> rfl

/-- A single-entity detect call reports `high_frequency` exactly when the
frequency check passes on the post-update history. -/
theorem detect_single_hf (st : HistoryState) (amount : ℚ) (currency : String)
    (now : ℚ) (e : Entity) :
    ((detect_anomalies st amount currency [e] now).1.any isHighFrequencyAnomaly)
      = check_transaction_frequency
          (update_transaction_history st e.name amount currency now) e.name now := by
  have hbaseL : ∀ x ∈ detector_large_anomalies amount currency,
      isHighFrequencyAnomaly x = false := by
    intro x hx
    rw [detector_large_anomalies] at hx
    split at hx
    · rw [List.mem_singleton] at hx
      subst hx
      rfl
    · cases hx
  have hbaseR : ∀ x ∈ detector_round_anomalies amount currency,
      isHighFrequencyAnomaly x = false := by
    intro x hx
    rw [detector_round_anomalies] at hx
    split at hx
    · rw [List.mem_singleton] at hx
      subst hx
      rfl
    · cases hx
  have hfA : ∀ d ev, isHighFrequencyAnomaly ⟨"high_frequency", 8/10, d, ev⟩ = true :=
    fun _ _ => by simp [isHighFrequencyAnomaly]
  have hvA : ∀ d ev, isHighFrequencyAnomaly ⟨"high_velocity", 8/10, d, ev⟩ = false :=
    fun _ _ => rfl
  have hnA : ∀ d ev, isHighFrequencyAnomaly ⟨"new_entity", 6/10, d, ev⟩ = false :=
    fun _ _ => rfl
  rw [detect_anomalies]
  simp only [List.foldl_cons, List.foldl_nil]
  rw [detect_entity_step]
  dsimp only
  by_cases hfreq : check_transaction_frequency
      (update_transaction_history st e.name amount currency now) e.name now <;>
    by_cases hvel : check_transaction_velocity
        (update_transaction_history st e.name amount currency now) e.name now <;>
      by_cases hnew : is_new_entity
          (update_transaction_history st e.name amount currency now) e.name now <;>
        simp [hfreq, hvel, hnew, List.any_append, hfA, hvA, hnA] <;>
          exact ⟨hbaseL, hbaseR⟩

/-- Updating an entity already stored in the history dict. -/
theorem update_known (st : HistoryState) (name : String) (h0 : EntityHistory)
    (hst : st name = some h0) (amount : ℚ) (currency : String) (now : ℚ) :
    update_transaction_history st name amount currency now
      = fun n => if n = name
          then some (cleanup_history
            ⟨h0.transactions ++ [⟨now, amount, currency⟩],
             fun d => if d = dayOf now
               then some ((h0.daily_amounts (dayOf now)).getD 0 + amount)
               else h0.daily_amounts d,
             h0.first_seen⟩ now)
          else st n := by
  rw [update_transaction_history, hst]

/-- Updating an entity not yet stored in the history dict. -/
theorem update_fresh (st : HistoryState) (name : String)
    (hst : st name = none) (amount : ℚ) (currency : String) (now : ℚ) :
    update_transaction_history st name amount currency now
      = fun n => if n = name
          then some (cleanup_history
            ⟨[⟨now, amount, currency⟩],
             fun d => if d = dayOf now then some (0 + amount) else none,
             now⟩ now)
          else st n := by
  rw [update_transaction_history, hst]
  rfl

/-- The history dict after `k` successive single-entity detect calls, all
with the same injected time (hence all on one calendar day). -/
def iterate_detect (e : Entity) (amount : ℚ) (currency : String) (now : ℚ) : ℕ → HistoryState
  | 0 => emptyState
  | k + 1 =>
    (detect_anomalies (iterate_detect e amount currency now k) amount currency [e] now).2

/-- The anomaly list returned by the `(k+1)`-st successive detect call. -/
def call_result (e : Entity) (amount : ℚ) (currency : String) (now : ℚ) (k : ℕ) : List Anomaly :=
  (detect_anomalies (iterate_detect e amount currency now k) amount currency [e] now).1

theorem iterate_detect_state (e : Entity) (amount : ℚ) (currency : String) (now : ℚ) :
    ∀ k : ℕ, ∃ h : EntityHistory,
      iterate_detect e amount currency now (k + 1)
          = (fun n => if n = e.name then some h else none)
        ∧ h.transactions = List.replicate (k + 1) ⟨now, amount, currency⟩
        ∧ h.first_seen = now := by
  have hkeep : ∀ t : TxnRecord, t ∈ [(⟨now, amount, currency⟩ : TxnRecord)] →
      decide (t.time > now - 30 * 86400) = true := by
    intro t ht
    rw [List.mem_singleton] at ht
    subst ht
    rw [decide_eq_true_eq]
    dsimp only
    linarith
  intro k
  induction k with
  | zero =>
    have hstep : iterate_detect e amount currency now 1
        = update_transaction_history emptyState e.name amount currency now := rfl
    rw [hstep, update_fresh emptyState e.name rfl amount currency now]
    refine ⟨_, rfl, ?_, rfl⟩
    dsimp only [cleanup_history]
    rw [List.filter_eq_self.mpr hkeep]
    rfl
  | succ k ih =>
    obtain ⟨h, hstate, htrans, hfirst⟩ := ih
    have hlook : iterate_detect e amount currency now (k + 1) e.name = some h := by
      rw [hstate]
      simp
    have hstep : iterate_detect e amount currency now (k + 1 + 1)
        = update_transaction_history (iterate_detect e amount currency now (k + 1))
            e.name amount currency now := rfl
    rw [hstep, update_known _ _ h hlook amount currency now]
    refine ⟨cleanup_history
        ⟨h.transactions ++ [⟨now, amount, currency⟩],
         fun d => if d = dayOf now
           then some ((h.daily_amounts (dayOf now)).getD 0 + amount)
           else h.daily_amounts d,
         h.first_seen⟩ now, ?_, ?_, ?_⟩
    · funext n
      by_cases hn : n = e.name
      · rw [if_pos hn, if_pos hn]
      · rw [if_neg hn, if_neg hn, hstate]
        dsimp only
        rw [if_neg hn]
    · dsimp only [cleanup_history]
      rw [htrans, List.filter_eq_self.mpr ?_, ← List.replicate_succ']
      intro t ht
      rw [List.mem_append] at ht
      have heq : t = ⟨now, amount, currency⟩ := by
        rcases ht with ht | ht
        · exact List.eq_of_mem_replicate ht
        · exact List.mem_singleton.mp ht
      subst heq
      rw [decide_eq_true_eq]
      dsimp only
      linarith
    · exact hfirst

theorem call_result_hf_iff (e : Entity) (amount : ℚ) (currency : String)
    (now : ℚ) (k : ℕ) :
    ((call_result e amount currency now k).any isHighFrequencyAnomaly = true)
      ↔ 5 < k + 1 := by
  rw [call_result, detect_single_hf]
  have hstep : update_transaction_history (iterate_detect e amount currency now k)
      e.name amount currency now = iterate_detect e amount currency now (k + 1) := rfl
  rw [hstep]
  obtain ⟨h, hstate, htrans, -⟩ := iterate_detect_state e amount currency now k
  have hlook : iterate_detect e amount currency now (k + 1) e.name = some h := by
    rw [hstate]
    simp
  rw [check_transaction_frequency, hlook]
  dsimp only
  have hcount : h.transactions.countP (fun t => decide (dayOf t.time = dayOf now)) = k + 1 := by
    rw [htrans]
    have hall : (List.replicate (k + 1) (⟨now, amount, currency⟩ : TxnRecord)).countP
        (fun t => decide (dayOf t.time = dayOf now))
        = (List.replicate (k + 1) (⟨now, amount, currency⟩ : TxnRecord)).length :=
      List.countP_eq_length.mpr (fun t ht => by
        rw [List.eq_of_mem_replicate ht]
        exact decide_eq_true
          (show dayOf (⟨now, amount, currency⟩ : TxnRecord).time = dayOf now from rfl))
    rw [hall, List.length_replicate]
  rw [hcount, decide_eq_true_eq]

/-- C5: with the current time injected and an empty starting history,
successive single-entity detect calls at the same injected instant (hence on
one calendar day) report a `high_frequency` anomaly (severity 0.8) on the
`(k+1)`-st call exactly when `k+1 > 5` — the rule fires precisely when the
count of that entity's same-day transactions, after recording the new one,
exceeds 5 — so none of the first 5 calls reports it and the 6th does. -/
theorem C5_high_frequency_on_sixth_call (e : Entity) (amount : ℚ)
    (currency : String) (now : ℚ) :
    (∀ k : ℕ, ((call_result e amount currency now k).any isHighFrequencyAnomaly = true)
        ↔ 5 < k + 1)
    ∧ (∀ k : ℕ, k < 5 →
        (call_result e amount currency now k).any isHighFrequencyAnomaly = false)
    ∧ ((call_result e amount currency now 5).any isHighFrequencyAnomaly = true) := by
  have hiff := fun k => call_result_hf_iff e amount currency now k
  refine ⟨hiff, ?_, (hiff 5).mpr (by omega)⟩
  intro k hk
  refine Bool.eq_false_iff.mpr fun hcon => ?_
  have := (hiff k).mp hcon
  omega

def c5_entity : Entity :=
  { name := "Vandelay Industries"
    type := .CORPORATION
    confidence_score := 1
    evidence_sources := [] }

theorem C5_witness :
    (((call_result c5_entity 500 "USD" 0 0).any isHighFrequencyAnomaly = true) ↔ 5 < 0 + 1)
    ∧ ((call_result c5_entity 500 "USD" 0 0).any isHighFrequencyAnomaly = false)
    ∧ ((call_result c5_entity 500 "USD" 0 5).any isHighFrequencyAnomaly = true) :=
  ⟨(C5_high_frequency_on_sixth_call c5_entity 500 "USD" 0).1 0,
   (C5_high_frequency_on_sixth_call c5_entity 500 "USD" 0).2.1 0 (by norm_num),
   (C5_high_frequency_on_sixth_call c5_entity 500 "USD" 0).2.2⟩

end Aidel
